import Mathlib

/-!
# Verification of the vdatadao-proof scoring pipeline

Shallow embedding of `my_proof/proof.py`, `my_proof/utils/blockchain.py` and
`my_proof/utils/google.py`.  The repository's source files contain an
unresolved git merge; the specification and the claims describe the `HEAD`
side of every conflict block, so that is the side embedded here.

Modelling conventions:
* Python floats are modelled as rationals (`ℚ`); all arithmetic in the
  scoring pipeline is exact on the constants involved.
* A raised Python exception is modelled as `none : Option α`; all fallible
  functions return `Option`.
* Code of the repository that is not under `src/` (the `validate_schema`
  helper, the `settings` object, the `ProofResponse` model) enters the
  embedding as explicit parameters of a run context, or is modelled from
  the specification where its contents matter (marked in doc comments).
-/

/-- A parsed JSON value, the shape of `json.loads` output.  Python `bool`
is a subclass of `int`, which matters for the `isinstance` checks in the
scoring code, so booleans are kept as a separate constructor and the
numeric coercions below treat them as numbers. -/
inductive JVal where
  | null
  | bool (b : Bool)
  | num (q : ℚ)
  | str (s : String)
  | arr (xs : List JVal)
  | obj (kvs : List (String × JVal))

/-- Structural equality of JSON values, the fragment of Python `==` the
scoring code exercises (values of distinct JSON types compare unequal). -/
def JVal.beq : JVal → JVal → Bool
  | .null, .null => true
  | .bool a, .bool b => a == b
  | .num a, .num b => a == b
  | .str a, .str b => a == b
  | .arr xs, .arr ys =>
    match xs, ys with
    | [], [] => true
    | x :: xs, y :: ys => JVal.beq x y && JVal.beq (.arr xs) (.arr ys)
    | _, _ => false
  | .obj xs, .obj ys =>
    match xs, ys with
    | [], [] => true
    | (k, x) :: xs, (l, y) :: ys =>
      k == l && JVal.beq x y && JVal.beq (.obj xs) (.obj ys)
    | _, _ => false
  | _, _ => false

instance : BEq JVal := ⟨JVal.beq⟩

/-- Python truthiness of a JSON value (`if x:` / `not x`). -/
def truthy : JVal → Bool
  | .null => false
  | .bool b => b
  | .num q => decide (q ≠ 0)
  | .str s => decide (s ≠ "")
  | .arr xs => !xs.isEmpty
  | .obj kvs => !kvs.isEmpty

/-- Python `d.get(key, default)`: defined on dicts only, an `AttributeError`
(modelled as `none`) on every other value. -/
def pget (v : JVal) (key : String) (default : JVal) : Option JVal :=
  match v with
  | .obj kvs => some ((List.lookup key kvs).getD default)
  | _ => none

/-- Substring test, the semantics of Python `sub in s` on strings. -/
def strContains (s sub : String) : Bool :=
  (List.range (s.length + 1)).any
    (fun i => ((s.toList.drop i).take sub.length) == sub.toList)

/-- Python `key in v`: key membership for dicts, substring for strings,
element membership for lists; a `TypeError` (`none`) on non-iterables. -/
def jmem (v : JVal) (key : String) : Option Bool :=
  match v with
  | .obj kvs => some (kvs.any (fun kv => kv.1 == key))
  | .str s => some (strContains s key)
  | .arr xs => some (xs.any (fun x => x == .str key))
  | _ => none

/-- Python `v[key]` with a string key: defined on dicts (`none` for a
missing key, a `KeyError`); a `TypeError` (`none`) on everything else,
including strings and lists, whose indices must be integers. -/
def jindexS (v : JVal) (key : String) : Option JVal :=
  match v with
  | .obj kvs => List.lookup key kvs
  | _ => none

/-- Python `len(v)`: defined on strings, lists and dicts, a `TypeError`
(`none`) otherwise. -/
def jlen : JVal → Option ℕ
  | .str s => some s.length
  | .arr xs => some xs.length
  | .obj kvs => some kvs.length
  | _ => none

/-- Python `isinstance(v, (int, float))`; `True`/`False` are instances of
`int`. -/
def isNum : JVal → Bool
  | .num _ => true
  | .bool _ => true
  | _ => false

/-- Numeric value of a JSON number for comparisons guarded by `isNum`
(`True` compares as 1, `False` as 0). -/
def numVal : JVal → ℚ
  | .num q => q
  | .bool b => if b then 1 else 0
  | _ => 0

/-- Python `isinstance(v, str)`. -/
def isStr : JVal → Bool
  | .str _ => true
  | _ => false

/-- String value of a JSON string, for uses guarded by `isStr`. -/
def strVal : JVal → String
  | .str s => s
  | _ => ""

/-- Python `s.isspace()`: non-empty and all characters whitespace (the
embedding uses Lean's whitespace predicate for the character class). -/
def pyIsSpace (s : String) : Bool :=
  decide (s ≠ "") && s.toList.all Char.isWhitespace

/-- Indicator used for the `score += 1.0` accumulation pattern. -/
def ind (b : Bool) : ℚ := if b then 1 else 0

/-- The `GoogleUserInfo` record of `my_proof/utils/google.py` (HEAD side). -/
structure GoogleUserInfo where
  id : String
  email : String
  name : String
  verified_email : Bool

/-- One candidate entry of the input directory.  `isJson` is the value of
the extension test `os.path.splitext(f)[1].lower() == '.json'`; `data` is
the payload parsed by `json.loads` (a parse failure raises out of
`generate` before any of the behaviour the claims describe, so candidate
files are modelled as already parsed). -/
structure InputFile where
  isJson : Bool
  data : JVal

/-- The run context: the process-wide `settings` object (`my_proof/config.py`
is not under `src/`; its fields enter as booleans recording truthiness of
the relevant variables) together with the responses of the external
collaborators during the run.

* `googleUser` is the value `get_google_user()` returns when
  `settings.GOOGLE_TOKEN` is set (`none` models every failure path of
  `my_proof/utils/google.py`, which returns `None` on them).
* `contributorInfoRPC` is the outcome of the `contributorInfo` contract
  call inside `BlockchainClient.get_contributor_file_count` (`none` = the
  call raised).
* `contentScan` models the outcome of the (stubbed) ledger scan inside the
  `try` block of `BlockchainClient.check_content_uniqueness` (`none` = it
  raised, triggering the `except` branch).
* `validateSchema` is `my_proof.utils.schema.validate_schema`, which is not
  under `src/`; per the specification it is a pure total function returning
  a schema name and a match flag and never raises, so it is carried as an
  opaque parameter. -/
structure Ctx where
  googleTokenSet : Bool
  googleUser : Option GoogleUserInfo
  blockchainAvailable : Bool
  ownerAddressSet : Bool
  contributorInfoRPC : Option ℕ
  uploadSourceIsDrive : Bool
  contentScan : Option Unit
  validateSchema : JVal → String × Bool

namespace BlockchainClient

/-- Embeds `BlockchainClient.get_contributor_file_count`: inside the `try`,
an unset `OWNER_ADDRESS` raises a `ValueError`, and the `except` clause
turns it — like any RPC failure — into `0`; a successful contract call
yields `contributorInfo[1]`. -/
def get_contributor_file_count (ctx : Ctx) : ℕ :=
  if ctx.ownerAddressSet then
    match ctx.contributorInfoRPC with
    | some n => n
    | none => 0
  else 0

/-- Embeds `BlockchainClient.check_content_uniqueness` (HEAD side): the
`try` body ignores the ledger scan and returns `True`, and the `except`
clause also returns `True` ("Hata durumunda benzersiz kabul et").  The
`user_id`/`username` arguments are unused by the body. -/
def check_content_uniqueness (ctx : Ctx) (user_id username : JVal) : Bool :=
  match ctx.contentScan with
  | some _ => true
  | none => true

/-- The result of the call `self.blockchain_client.check_content_uniqueness(...)`
as seen by the `try`/`except` in `Proof._check_content_uniqueness`: the
method catches every exception internally, so the call always returns
normally (`some`). -/
def call_check_content_uniqueness (ctx : Ctx) (user_id username : JVal) :
    Option Bool :=
  some (check_content_uniqueness ctx user_id username)

end BlockchainClient

namespace Proof

/-- Embeds `Proof._check_if_drive_upload`: `True` exactly when
`settings.UPLOAD_SOURCE` exists and equals `'google_drive'`. -/
def check_if_drive_upload (ctx : Ctx) : Bool :=
  ctx.uploadSourceIsDrive

/-- Embeds `Proof._validate_instagram_schema`: `validate_schema` matches and
the schema type is `instagram-profile.json` (the `except` branch cannot
trigger, `validate_schema` being total per its contract). -/
def validate_instagram_schema (ctx : Ctx) (input_data : JVal) : Bool :=
  (ctx.validateSchema input_data).2 &&
    ((ctx.validateSchema input_data).1 == "instagram-profile.json")

/-- The `score / checks` accumulation of `Proof._check_instagram_consistency`:
five `score += 1.0` checks over `checks = 5`. -/
def consistencyFraction (c1 c2 c3 c4 c5 : Bool) : ℚ :=
  (ind c1 + ind c2 + ind c3 + ind c4 + ind c5) / 5

/-- Embeds `Proof._check_instagram_consistency`: five checks, each adding
`1.0` to `score`, divided by `checks = 5`. -/
def check_instagram_consistency (input_data : JVal) : Option ℚ := do
  let p1 ← pget input_data "profile" (JVal.obj [])
  let followers ← pget p1 "followersCount" (JVal.num 0)
  let c1 := isNum followers && decide (0 ≤ numVal followers)
  let p2 ← pget input_data "profile" (JVal.obj [])
  let following ← pget p2 "followingCount" (JVal.num 0)
  let c2 := isNum following && decide (0 ≤ numVal following)
  let p3 ← pget input_data "profile" (JVal.obj [])
  let posts_count ← pget p3 "postsCount" (JVal.num 0)
  let c3 := isNum posts_count && decide (0 ≤ numVal posts_count)
  let timestamp ← pget input_data "timestamp" (JVal.num 0)
  let c4 := isNum timestamp && decide (0 < numVal timestamp)
  let username ← pget input_data "username" (JVal.str "")
  let c5 := isStr username && decide (0 < (strVal username).length) &&
    !pyIsSpace (strVal username)
  pure (consistencyFraction c1 c2 c3 c4 c5)

/-- The `field in profile and profile[field] is not None` pattern shared by
the statistics part of the coverage computation and by
`_calculate_profile_completeness`. -/
def statPresent (container : JVal) (field : String) : Option Bool := do
  let m ← jmem container field
  if m then
    match jindexS container field with
    | some v => pure (v != JVal.null)
    | none => none
  else
    pure false

/-- The `if posts and len(posts) > 0` check of
`Proof._calculate_instagram_coverage`: short-circuits on a falsy value, so
`len` — and its `TypeError` on unsized values — is only reached on truthy
ones. -/
def postsPresent (posts : JVal) : Option Bool :=
  if truthy posts then do
    let n ← jlen posts
    pure (decide (0 < n))
  else pure false

/-- The `basic_fields` block of `Proof._calculate_instagram_coverage`:
`score` contribution of the five descriptive profile fields. -/
def coverageBasicScore (profile : JVal) : Option ℚ := do
  let b1 ← jmem profile "fullName"
  let b2 ← jmem profile "biography"
  let b3 ← jmem profile "website"
  let b4 ← jmem profile "isPrivate"
  let b5 ← jmem profile "isVerified"
  pure (ind b1 + ind b2 + ind b3 + ind b4 + ind b5)

/-- The `stats_fields` block of `Proof._calculate_instagram_coverage`:
`score` contribution of the three statistics fields. -/
def coverageStatsScore (profile : JVal) : Option ℚ := do
  let s1 ← statPresent profile "followersCount"
  let s2 ← statPresent profile "followingCount"
  let s3 ← statPresent profile "postsCount"
  pure (ind s1 + ind s2 + ind s3)

/-- The `meta_fields` block of `Proof._calculate_instagram_coverage`:
`score` contribution of the three metadata fields. -/
def coverageMetaScore (metadata : JVal) : Option ℚ := do
  let m1 ← jmem metadata "source"
  let m2 ← jmem metadata "collectionDate"
  let m3 ← jmem metadata "dataType"
  pure (ind m1 + ind m2 + ind m3)

/-- Embeds `Proof._calculate_instagram_coverage`: twelve presence checks
(five basic profile fields, three statistics fields, a non-empty posts
list, three metadata fields) divided by `total_fields = 12`. -/
def calculate_instagram_coverage (input_data : JVal) : Option ℚ := do
  let profile ← pget input_data "profile" (JVal.obj [])
  let basic ← coverageBasicScore profile
  let stats ← coverageStatsScore profile
  let posts ← pget input_data "posts" (JVal.arr [])
  let pp ← postsPresent posts
  let metadata ← pget input_data "metadata" (JVal.obj [])
  let meta ← coverageMetaScore metadata
  pure ((basic + stats + ind pp + meta) / 12)

/-- Embeds `Proof._calculate_instagram_quality_score` (0-35): schema bonus,
consistency and coverage each weighted by 10, clamped by `min(score, 35.0)`. -/
def calculate_instagram_quality_score (ctx : Ctx) (input_data : JVal) :
    Option ℚ := do
  let schema_score : ℚ := if validate_instagram_schema ctx input_data then 15 else 0
  let consistency_score ← check_instagram_consistency input_data
  let coverage_score ← calculate_instagram_coverage input_data
  pure (min (schema_score + consistency_score * 10 + coverage_score * 10) 35)

/-- The `present_fields / len(required_fields)` fraction of
`Proof._check_file_integrity`. -/
def integrityFraction (f1 f2 f3 f4 f5 : Bool) : ℚ :=
  (ind f1 + ind f2 + ind f3 + ind f4 + ind f5) / 5

/-- Embeds `Proof._check_file_integrity`: `0.0` on a falsy payload, else the
fraction of the five required top-level fields present. -/
def check_file_integrity (input_data : JVal) : Option ℚ :=
  if !truthy input_data then some 0
  else do
    let f1 ← jmem input_data "userId"
    let f2 ← jmem input_data "username"
    let f3 ← jmem input_data "timestamp"
    let f4 ← jmem input_data "profile"
    let f5 ← jmem input_data "metadata"
    pure (integrityFraction f1 f2 f3 f4 f5)

/-- Embeds `Proof._calculate_instagram_authenticity_score` (0-30): 20 for a
resolved Google user plus file integrity weighted by 10, clamped to 30.
The `is_drive_upload` argument is unused by the body, as in the source. -/
def calculate_instagram_authenticity_score (google_user : Option GoogleUserInfo)
    (input_data : JVal) (is_drive_upload : Bool) : Option ℚ := do
  let base : ℚ := if google_user.isSome then 20 else 0
  let file_integrity_score ← check_file_integrity input_data
  pure (min (base + file_integrity_score * 10) 30)

/-- Embeds `Proof._check_user_uniqueness`: with an initialized client and a
configured address, `1.0` for a first-time contributor and `0.5` otherwise;
`1.0` when the blockchain check is unavailable. -/
def check_user_uniqueness (ctx : Ctx) : ℚ :=
  if ctx.blockchainAvailable && ctx.ownerAddressSet then
    if BlockchainClient.get_contributor_file_count ctx = 0 then 1
    else 1/2
  else 1

/-- Embeds `Proof._check_content_uniqueness`: `0.0` when `userId` or
`username` is falsy; otherwise, with the client available, `1.0` for a
unique verdict, `0.3` for a duplicate, `0.7` when the call raised; `1.0`
without the client. -/
def check_content_uniqueness (ctx : Ctx) (input_data : JVal) : Option ℚ := do
  let user_id ← pget input_data "userId" JVal.null
  let username ← pget input_data "username" JVal.null
  if !truthy user_id || !truthy username then
    pure 0
  else if ctx.blockchainAvailable then
    match BlockchainClient.call_check_content_uniqueness ctx user_id username with
    | some is_unique_content => pure (if is_unique_content then 1 else 3/10)
    | none => pure (7/10)
  else
    pure 1

/-- Embeds `Proof._calculate_instagram_uniqueness_score` (0-20): user and
content uniqueness each weighted by 10, clamped to 20. -/
def calculate_instagram_uniqueness_score (ctx : Ctx) (input_data : JVal) :
    Option ℚ := do
  let user_uniqueness := check_user_uniqueness ctx
  let content_uniqueness ← check_content_uniqueness ctx input_data
  pure (min (user_uniqueness * 10 + content_uniqueness * 10) 20)

/-- Embeds `Proof._calculate_instagram_ownership_score` (0-15): 10 for a
resolved Google user, 5 more for a Drive upload with a resolved user,
clamped to 15. -/
def calculate_instagram_ownership_score (google_user : Option GoogleUserInfo)
    (is_drive_upload : Bool) : ℚ :=
  min ((if google_user.isSome then (10 : ℚ) else 0) +
    (if google_user.isSome && is_drive_upload then (5 : ℚ) else 0)) 15

/-- The `filled_fields / total_fields` fraction of
`Proof._calculate_profile_completeness`. -/
def completenessFraction (g1 g2 g3 g4 g5 g6 g7 g8 : Bool) : ℚ :=
  (ind g1 + ind g2 + ind g3 + ind g4 + ind g5 + ind g6 + ind g7 + ind g8) / 8

/-- Embeds `Proof._calculate_profile_completeness`: the fraction of eight
profile fields present and non-`None`. -/
def calculate_profile_completeness (input_data : JVal) : Option ℚ := do
  let profile ← pget input_data "profile" (JVal.obj [])
  let g1 ← statPresent profile "fullName"
  let g2 ← statPresent profile "biography"
  let g3 ← statPresent profile "website"
  let g4 ← statPresent profile "isPrivate"
  let g5 ← statPresent profile "isVerified"
  let g6 ← statPresent profile "followersCount"
  let g7 ← statPresent profile "followingCount"
  let g8 ← statPresent profile "postsCount"
  pure (completenessFraction g1 g2 g3 g4 g5 g6 g7 g8)

end Proof

/-- The public attributes dictionary built by `Proof.generate` for a scored
file (proof.py, `self.proof_response.attributes = {...}`), one field per
key of the dict literal. -/
structure Attributes where
  schema_type : String
  user_id : JVal
  username : JVal
  verified_via_oauth : Bool
  uploaded_via_drive : Bool
  instagram_api_available : Bool
  data_coverage : ℚ
  data_consistency : ℚ
  posts_count : ℕ
  profile_completeness : ℚ
  user_uniqueness : ℚ
  content_uniqueness : ℚ
  total_uniqueness_score : ℚ
  platform : String
  verification_method : String
  upload_method : String

/-- The on-chain metadata dictionary built by `Proof.generate`
(`self.proof_response.metadata = {...}`, HEAD side). -/
structure Metadata where
  schema_type : String
  platform : String
  verification_method : String
  upload_method : String
  scoring_system : String
  penalty_applied : Option String

/-- Modelled from the spec: the `ProofResponse` record
(`my_proof/models/proof_response.py` is not under `src/`).  Per §3 the
record carries the aggregate score, the validity flag, the four sub-scores,
attributes, metadata and the error-code list; per §7/§8 it starts invalid
with zero scores until the scoring engine writes it, and the attributes
error list is absent (empty) until `generate` attaches it. -/
structure ProofResponse where
  score : ℚ
  valid : Bool
  quality : ℚ
  authenticity : ℚ
  uniqueness : ℚ
  ownership : ℚ
  attributes : Option Attributes
  metadata : Option Metadata
  errors : List String

/-- Modelled from the spec: the freshly constructed
`ProofResponse(dlp_id=settings.DLP_ID)` of `Proof.__init__` — zero scores,
not valid, no attributes or metadata, no errors. -/
def ProofResponse.init : ProofResponse :=
  { score := 0, valid := false, quality := 0, authenticity := 0,
    uniqueness := 0, ownership := 0, attributes := none, metadata := none,
    errors := [] }

namespace Proof

/-- The value `google_user` holds during `Proof.generate`: `None` unless
`settings.GOOGLE_TOKEN` is set, in which case the result of
`get_google_user()`. -/
def effectiveUser (ctx : Ctx) : Option GoogleUserInfo :=
  if ctx.googleTokenSet then ctx.googleUser else none

/-- The run-level error list right after the token check of
`Proof.generate`: `UNVERIFIED_STORAGE_USER` when a token is configured but
no user was resolved. -/
def initialErrors (ctx : Ctx) : List String :=
  if ctx.googleTokenSet then
    match ctx.googleUser with
    | none => ["UNVERIFIED_STORAGE_USER"]
    | some _ => []
  else []

/-- Assembles the `Attributes` record from its already-computed entries. -/
def mkAttributes (schemaType : String) (user_id username : JVal)
    (verified isDrive : Bool) (cov cons : ℚ) (pc : ℕ) (comp uu cu tu : ℚ) :
    Attributes :=
  { schema_type := schemaType, user_id := user_id, username := username,
    verified_via_oauth := verified, uploaded_via_drive := isDrive,
    instagram_api_available := false, data_coverage := cov,
    data_consistency := cons, posts_count := pc,
    profile_completeness := comp, user_uniqueness := uu,
    content_uniqueness := cu, total_uniqueness_score := tu,
    platform := "instagram", verification_method := "google_oauth",
    upload_method := if isDrive then "google_drive" else "manual" }

/-- The attributes dict literal of `Proof.generate`, entries computed in
source order (`user_id`, `username`, the oauth/drive flags, coverage,
consistency, posts count, completeness, then the three uniqueness
entries, each re-running its check). -/
def buildAttributes (ctx : Ctx) (gu : Option GoogleUserInfo) (isDrive : Bool)
    (schemaType : String) (input_data : JVal) : Option Attributes := do
  let user_id ← pget input_data "userId" JVal.null
  let username ← pget input_data "username" JVal.null
  let cov ← calculate_instagram_coverage input_data
  let cons ← check_instagram_consistency input_data
  let posts ← pget input_data "posts" (JVal.arr [])
  let pc ← jlen posts
  let comp ← calculate_profile_completeness input_data
  let cu ← check_content_uniqueness ctx input_data
  let tu ← calculate_instagram_uniqueness_score ctx input_data
  pure (mkAttributes schemaType user_id username gu.isSome isDrive cov cons
    pc comp (check_user_uniqueness ctx) cu tu)

/-- The metadata dict literal of `Proof.generate` (HEAD side). -/
def mkMetadata (schemaType : String) (isDrive penalized : Bool) : Metadata :=
  { schema_type := schemaType, platform := "instagram",
    verification_method := "google_oauth",
    upload_method := if isDrive then "google_drive" else "manual",
    scoring_system := "100_point_scale",
    penalty_applied := if penalized then some "NO_GOOGLE_OAUTH" else none }

/-- The body of `Proof.generate`'s loop for one schema-matching JSON file
(proof.py, from the `NO_GOOGLE_OAUTH` check through
`self.proof_response.valid = len(errors) == 0`): records the OAuth error,
computes the four sub-scores and the attributes, applies the 90% penalty
when `NO_GOOGLE_OAUTH` was recorded, writes the metadata, and sets the
validity flag from the error list. -/
def scoreFile (ctx : Ctx) (gu : Option GoogleUserInfo) (isDrive : Bool)
    (schemaType : String) (input_data : JVal) (errs : List String)
    (pr : ProofResponse) : Option (List String × ProofResponse) := do
  let errs2 := if gu.isNone then errs ++ ["NO_GOOGLE_OAUTH"] else errs
  let quality ← calculate_instagram_quality_score ctx input_data
  let authenticity ← calculate_instagram_authenticity_score gu input_data isDrive
  let uniqueness ← calculate_instagram_uniqueness_score ctx input_data
  let ownership := calculate_instagram_ownership_score gu isDrive
  let attrs ← buildAttributes ctx gu isDrive schemaType input_data
  let base := quality + authenticity + uniqueness + ownership
  let score := if "NO_GOOGLE_OAUTH" ∈ errs2 then base - base * (9/10) else base
  pure (errs2,
    { pr with
      quality := quality, authenticity := authenticity,
      uniqueness := uniqueness, ownership := ownership,
      attributes := some attrs, score := score,
      metadata := some (mkMetadata schemaType isDrive
        (decide ("NO_GOOGLE_OAUTH" ∈ errs2))),
      valid := errs2.isEmpty })

/-- The file loop of `Proof.generate`: skip entries without the `.json`
extension; on a schema mismatch append `INVALID_SCHEMA` and `break`;
otherwise score the file and continue with the updated state. -/
def processFiles (ctx : Ctx) (gu : Option GoogleUserInfo) (isDrive : Bool) :
    List InputFile → List String → ProofResponse →
    Option (List String × ProofResponse)
  | [], errs, pr => some (errs, pr)
  | f :: rest, errs, pr =>
    if f.isJson then
      if (ctx.validateSchema f.data).2 then do
        let (errs2, pr2) ← scoreFile ctx gu isDrive (ctx.validateSchema f.data).1
          f.data errs pr
        processFiles ctx gu isDrive rest errs2 pr2
      else some (errs ++ ["INVALID_SCHEMA"], pr)
    else processFiles ctx gu isDrive rest errs pr

/-- Embeds `Proof.generate` (HEAD side): resolve the Google user when a
token is configured, run the file loop over the input directory, and
finally attach the error list to the response when it is non-empty. -/
def generate (ctx : Ctx) (files : List InputFile) : Option ProofResponse := do
  let gu := effectiveUser ctx
  let (errsF, prF) ← processFiles ctx gu (check_if_drive_upload ctx) files
    (initialErrors ctx) ProofResponse.init
  pure { prF with errors := if errsF.isEmpty then prF.errors else errsF }

/-- Whether the loop of `Proof.generate` scores at least one file: it does
exactly when the first `.json` entry exists and its schema matches (a
mismatch breaks the loop before anything is scored). -/
def scoresAny (ctx : Ctx) : List InputFile → Bool
  | [] => false
  | f :: rest =>
    if f.isJson then (ctx.validateSchema f.data).2
    else scoresAny ctx rest

/-- Every `.json` entry of the list passes schema validation (so the loop
never hits the `INVALID_SCHEMA` break while traversing it). -/
def allJsonValid (ctx : Ctx) (files : List InputFile) : Bool :=
  files.all (fun f => !f.isJson || (ctx.validateSchema f.data).2)

end Proof

/-- Ledger reads performed by one invocation of
`Proof._check_user_uniqueness`: it calls
`BlockchainClient.get_contributor_file_count` only when the client is
available and an owner address is configured (outer guard), and that
method performs one `contributorInfo` contract read unless the unset
address raises first (inner guard). -/
def userUniquenessReads (ctx : Ctx) : ℕ :=
  if ctx.blockchainAvailable && ctx.ownerAddressSet then
    (if ctx.ownerAddressSet then 1 else 0)
  else 0

/-- Invocations of `BlockchainClient.check_content_uniqueness` performed by
one invocation of `Proof._check_content_uniqueness`: none when `userId` or
`username` is falsy or the client is unavailable, one otherwise. -/
def contentUniquenessCalls (ctx : Ctx) (input_data : JVal) : Option ℕ := do
  let user_id ← pget input_data "userId" JVal.null
  let username ← pget input_data "username" JVal.null
  if !truthy user_id || !truthy username then pure 0
  else if ctx.blockchainAvailable then pure 1
  else pure 0

/-- Ledger `contributorInfo` reads performed while scoring one file:
`Proof._check_user_uniqueness` runs once inside
`_calculate_instagram_uniqueness_score`, once for the `user_uniqueness`
attribute, and once more inside the re-run of
`_calculate_instagram_uniqueness_score` for the `total_uniqueness_score`
attribute. -/
def fileContributorReads (ctx : Ctx) : ℕ :=
  userUniquenessReads ctx + userUniquenessReads ctx + userUniquenessReads ctx

/-- Invocations of `BlockchainClient.check_content_uniqueness` while
scoring one file: `Proof._check_content_uniqueness` runs inside
`_calculate_instagram_uniqueness_score`, again for the
`content_uniqueness` attribute, and again inside the re-run of
`_calculate_instagram_uniqueness_score` for the `total_uniqueness_score`
attribute. -/
def fileContentCalls (ctx : Ctx) (input_data : JVal) : Option ℕ := do
  let c1 ← contentUniquenessCalls ctx input_data
  let c2 ← contentUniquenessCalls ctx input_data
  let c3 ← contentUniquenessCalls ctx input_data
  pure (c1 + c2 + c3)

/-- Ledger `contributorInfo` reads performed over a whole run of
`Proof.generate`, following the loop structure: non-`.json` entries are
skipped, a schema mismatch stops the loop, and each scored file
contributes `fileContributorReads` (the count assumes each scored file's
scoring completes; the theorems pair it with a successful `generate`). -/
def runContributorReads (ctx : Ctx) : List InputFile → ℕ
  | [] => 0
  | f :: rest =>
    if f.isJson then
      if (ctx.validateSchema f.data).2 then
        fileContributorReads ctx + runContributorReads ctx rest
      else 0
    else runContributorReads ctx rest

/-- Number of files the loop of `Proof.generate` scores. -/
def scoredFileCount (ctx : Ctx) : List InputFile → ℕ
  | [] => 0
  | f :: rest =>
    if f.isJson then
      if (ctx.validateSchema f.data).2 then 1 + scoredFileCount ctx rest
      else 0
    else scoredFileCount ctx rest

/-- A fully populated Instagram profile block. -/
def sampleProfile : JVal :=
  .obj [("fullName", .str "Ada Lovelace"), ("biography", .str "maths"),
    ("website", .str "https://example.com"), ("isPrivate", .bool false),
    ("isVerified", .bool true), ("followersCount", .num 120),
    ("followingCount", .num 80), ("postsCount", .num 3)]

/-- A fully populated, schema-matching submission payload. -/
def samplePayload : JVal :=
  .obj [("userId", .str "17841400000000001"), ("username", .str "ada_insta"),
    ("timestamp", .num 1700000000), ("profile", sampleProfile),
    ("posts", .arr [.obj [("id", .str "p1")]]),
    ("metadata", .obj [("source", .str "export"),
      ("collectionDate", .str "2024-01-01"),
      ("dataType", .str "instagram-profile")])]

/-- A schema catalog that accepts dict payloads as the Instagram profile
schema and rejects everything else. -/
def objSchema : JVal → String × Bool :=
  fun d => match d with
  | .obj _ => ("instagram-profile.json", true)
  | _ => ("instagram-profile.json", false)

/-- A concrete resolved Google user. -/
def sampleUser : GoogleUserInfo :=
  { id := "google-1", email := "ada@example.com", name := "Ada",
    verified_email := true }

/-- A run with no credential configured and no ledger client. -/
def ctxNoToken : Ctx :=
  { googleTokenSet := false, googleUser := none, blockchainAvailable := false,
    ownerAddressSet := false, contributorInfoRPC := none,
    uploadSourceIsDrive := false, contentScan := some (),
    validateSchema := objSchema }

/-- A run with a resolved user and a working ledger reporting no prior
contribution. -/
def ctxVerified : Ctx :=
  { googleTokenSet := true, googleUser := some sampleUser,
    blockchainAvailable := true, ownerAddressSet := true,
    contributorInfoRPC := some 0, uploadSourceIsDrive := false,
    contentScan := some (), validateSchema := objSchema }

/-- A run whose (hypothetical) inner ledger scan for content uniqueness
fails. -/
def ctxScanFail : Ctx :=
  { googleTokenSet := true, googleUser := some sampleUser,
    blockchainAvailable := true, ownerAddressSet := true,
    contributorInfoRPC := some 0, uploadSourceIsDrive := false,
    contentScan := none, validateSchema := objSchema }

/-- A run like `ctxVerified` whose ledger reports two prior contributions. -/
def ctxPrior : Ctx :=
  { googleTokenSet := true, googleUser := some sampleUser,
    blockchainAvailable := true, ownerAddressSet := true,
    contributorInfoRPC := some 2, uploadSourceIsDrive := false,
    contentScan := some (), validateSchema := objSchema }

/-- A second, sparsely populated but schema-matching payload. -/
def sparsePayload : JVal :=
  .obj [("userId", .str "17841400000000002"), ("username", .str "bob_insta")]

/-- A payload whose `username` is the empty string (falsy). -/
def noNamePayload : JVal :=
  .obj [("userId", .str "17841400000000003"), ("username", .str "")]


lemma ind_nonneg (b : Bool) : 0 ≤ ind b := by cases b <;> norm_num [ind]

lemma ind_le_one (b : Bool) : ind b ≤ 1 := by cases b <;> norm_num [ind]

lemma blockchain_content_unique (ctx : Ctx) (u n : JVal) :
    BlockchainClient.check_content_uniqueness ctx u n = true := by
  unfold BlockchainClient.check_content_uniqueness
  cases ctx.contentScan <;> rfl

lemma proof_content_uniqueness_one (ctx : Ctx) (d u n : JVal)
    (h1 : pget d "userId" JVal.null = some u)
    (h2 : pget d "username" JVal.null = some n)
    (hu : truthy u = true) (hn : truthy n = true)
    (ha : ctx.blockchainAvailable = true) :
    Proof.check_content_uniqueness ctx d = some 1 := by
  unfold Proof.check_content_uniqueness
  rw [h1]
  simp only [Option.bind_eq_bind, Option.some_bind]
  rw [h2]
  simp [hu, hn, ha, BlockchainClient.call_check_content_uniqueness,
    blockchain_content_unique]

lemma proof_content_uniqueness_zero (ctx : Ctx) (d u n : JVal)
    (h1 : pget d "userId" JVal.null = some u)
    (h2 : pget d "username" JVal.null = some n)
    (hf : truthy u = false ∨ truthy n = false) :
    Proof.check_content_uniqueness ctx d = some 0 := by
  unfold Proof.check_content_uniqueness
  rw [h1]
  simp only [Option.bind_eq_bind, Option.some_bind]
  rw [h2]
  rcases hf with hf | hf <;> simp [hf]

lemma consistencyFraction_bounds (c1 c2 c3 c4 c5 : Bool) :
    0 ≤ Proof.consistencyFraction c1 c2 c3 c4 c5 ∧
      Proof.consistencyFraction c1 c2 c3 c4 c5 ≤ 1 := by
  have h1 := ind_nonneg c1; have h1' := ind_le_one c1
  have h2 := ind_nonneg c2; have h2' := ind_le_one c2
  have h3 := ind_nonneg c3; have h3' := ind_le_one c3
  have h4 := ind_nonneg c4; have h4' := ind_le_one c4
  have h5 := ind_nonneg c5; have h5' := ind_le_one c5
  unfold Proof.consistencyFraction
  constructor <;> [positivity; linarith]

lemma consistency_bounds (d : JVal) (q : ℚ)
    (h : Proof.check_instagram_consistency d = some q) : 0 ≤ q ∧ q ≤ 1 := by
  unfold Proof.check_instagram_consistency at h
  simp only [Option.bind_eq_bind, Option.bind_eq_some, Option.pure_def,
    Option.some.injEq] at h
  obtain ⟨p1, -, fo, -, p2, -, fg, -, p3, -, pc, -, ts, -, un, -, hq⟩ := h
  exact hq ▸ consistencyFraction_bounds _ _ _ _ _

lemma coverageBasicScore_bounds (p : JVal) (q : ℚ)
    (h : Proof.coverageBasicScore p = some q) : 0 ≤ q ∧ q ≤ 5 := by
  unfold Proof.coverageBasicScore at h
  simp only [Option.bind_eq_bind, Option.bind_eq_some, Option.pure_def,
    Option.some.injEq] at h
  obtain ⟨b1, -, b2, -, b3, -, b4, -, b5, -, hq⟩ := h
  subst hq
  have h1 := ind_nonneg b1; have h1' := ind_le_one b1
  have h2 := ind_nonneg b2; have h2' := ind_le_one b2
  have h3 := ind_nonneg b3; have h3' := ind_le_one b3
  have h4 := ind_nonneg b4; have h4' := ind_le_one b4
  have h5 := ind_nonneg b5; have h5' := ind_le_one b5
  constructor <;> linarith

lemma coverageStatsScore_bounds (p : JVal) (q : ℚ)
    (h : Proof.coverageStatsScore p = some q) : 0 ≤ q ∧ q ≤ 3 := by
  unfold Proof.coverageStatsScore at h
  simp only [Option.bind_eq_bind, Option.bind_eq_some, Option.pure_def,
    Option.some.injEq] at h
  obtain ⟨s1, -, s2, -, s3, -, hq⟩ := h
  subst hq
  have h1 := ind_nonneg s1; have h1' := ind_le_one s1
  have h2 := ind_nonneg s2; have h2' := ind_le_one s2
  have h3 := ind_nonneg s3; have h3' := ind_le_one s3
  constructor <;> linarith

lemma coverageMetaScore_bounds (p : JVal) (q : ℚ)
    (h : Proof.coverageMetaScore p = some q) : 0 ≤ q ∧ q ≤ 3 := by
  unfold Proof.coverageMetaScore at h
  simp only [Option.bind_eq_bind, Option.bind_eq_some, Option.pure_def,
    Option.some.injEq] at h
  obtain ⟨m1, -, m2, -, m3, -, hq⟩ := h
  subst hq
  have h1 := ind_nonneg m1; have h1' := ind_le_one m1
  have h2 := ind_nonneg m2; have h2' := ind_le_one m2
  have h3 := ind_nonneg m3; have h3' := ind_le_one m3
  constructor <;> linarith

lemma coverage_bounds (d : JVal) (q : ℚ)
    (h : Proof.calculate_instagram_coverage d = some q) : 0 ≤ q ∧ q ≤ 1 := by
  unfold Proof.calculate_instagram_coverage at h
  simp only [Option.bind_eq_bind, Option.bind_eq_some, Option.pure_def,
    Option.some.injEq] at h
  obtain ⟨p, -, basic, hb, stats, hs, posts, -, pp, -, meta, -, m, hm, hq⟩ := h
  subst hq
  obtain ⟨hb0, hb1⟩ := coverageBasicScore_bounds _ _ hb
  obtain ⟨hs0, hs1⟩ := coverageStatsScore_bounds _ _ hs
  obtain ⟨hm0, hm1⟩ := coverageMetaScore_bounds _ _ hm
  have hp := ind_nonneg pp; have hp' := ind_le_one pp
  constructor <;> [positivity; linarith]

lemma integrityFraction_bounds (f1 f2 f3 f4 f5 : Bool) :
    0 ≤ Proof.integrityFraction f1 f2 f3 f4 f5 ∧
      Proof.integrityFraction f1 f2 f3 f4 f5 ≤ 1 := by
  have h1 := ind_nonneg f1; have h1' := ind_le_one f1
  have h2 := ind_nonneg f2; have h2' := ind_le_one f2
  have h3 := ind_nonneg f3; have h3' := ind_le_one f3
  have h4 := ind_nonneg f4; have h4' := ind_le_one f4
  have h5 := ind_nonneg f5; have h5' := ind_le_one f5
  unfold Proof.integrityFraction
  constructor <;> [positivity; linarith]

lemma integrity_bounds (d : JVal) (q : ℚ)
    (h : Proof.check_file_integrity d = some q) : 0 ≤ q ∧ q ≤ 1 := by
  unfold Proof.check_file_integrity at h
  split at h
  · simp only [Option.some.injEq] at h
    subst h; norm_num
  · simp only [Option.bind_eq_bind, Option.bind_eq_some, Option.pure_def,
      Option.some.injEq] at h
    obtain ⟨f1, -, f2, -, f3, -, f4, -, f5, -, hq⟩ := h
    exact hq ▸ integrityFraction_bounds _ _ _ _ _

lemma user_uniqueness_bounds (ctx : Ctx) :
    0 ≤ Proof.check_user_uniqueness ctx ∧ Proof.check_user_uniqueness ctx ≤ 1 := by
  unfold Proof.check_user_uniqueness
  split
  · split <;> norm_num
  · norm_num

lemma content_uniqueness_bounds (ctx : Ctx) (d : JVal) (q : ℚ)
    (h : Proof.check_content_uniqueness ctx d = some q) : 0 ≤ q ∧ q ≤ 1 := by
  unfold Proof.check_content_uniqueness
    BlockchainClient.call_check_content_uniqueness at h
  simp only [Option.bind_eq_bind, Option.bind_eq_some, Option.pure_def,
    Option.some.injEq] at h
  obtain ⟨u, -, n, -, hq⟩ := h
  split at hq
  · simp only [Option.some.injEq] at hq
    subst hq; norm_num
  · split at hq
    · split at hq <;>
        (simp only [Option.some.injEq] at hq; subst hq; norm_num)
    · simp only [Option.some.injEq] at hq
      subst hq; norm_num

lemma quality_bounds (ctx : Ctx) (d : JVal) (q : ℚ)
    (h : Proof.calculate_instagram_quality_score ctx d = some q) :
    0 ≤ q ∧ q ≤ 35 := by
  unfold Proof.calculate_instagram_quality_score at h
  simp only [Option.bind_eq_bind, Option.bind_eq_some, Option.pure_def,
    Option.some.injEq] at h
  obtain ⟨c, hc, v, hv, hq⟩ := h
  obtain ⟨hc0, hc1⟩ := consistency_bounds _ _ hc
  obtain ⟨hv0, hv1⟩ := coverage_bounds _ _ hv
  have hs : (0 : ℚ) ≤ if Proof.validate_instagram_schema ctx d then 15 else 0 := by
    split <;> norm_num
  subst hq
  constructor
  · exact le_min (by linarith) (by norm_num)
  · exact min_le_right _ _

lemma authenticity_bounds (gu : Option GoogleUserInfo) (d : JVal) (dr : Bool)
    (q : ℚ) (h : Proof.calculate_instagram_authenticity_score gu d dr = some q) :
    0 ≤ q ∧ q ≤ 30 := by
  unfold Proof.calculate_instagram_authenticity_score at h
  simp only [Option.bind_eq_bind, Option.bind_eq_some, Option.pure_def,
    Option.some.injEq] at h
  obtain ⟨i, hi, hq⟩ := h
  obtain ⟨hi0, hi1⟩ := integrity_bounds _ _ hi
  have hs : (0 : ℚ) ≤ if gu.isSome then 20 else 0 := by split <;> norm_num
  subst hq
  constructor
  · exact le_min (by linarith) (by norm_num)
  · exact min_le_right _ _

lemma uniqueness_bounds (ctx : Ctx) (d : JVal) (q : ℚ)
    (h : Proof.calculate_instagram_uniqueness_score ctx d = some q) :
    0 ≤ q ∧ q ≤ 20 := by
  unfold Proof.calculate_instagram_uniqueness_score at h
  simp only [Option.bind_eq_bind, Option.bind_eq_some, Option.pure_def,
    Option.some.injEq] at h
  obtain ⟨c, hc, hq⟩ := h
  obtain ⟨hc0, hc1⟩ := content_uniqueness_bounds _ _ _ hc
  obtain ⟨hu0, hu1⟩ := user_uniqueness_bounds ctx
  subst hq
  constructor
  · exact le_min (by nlinarith) (by norm_num)
  · exact min_le_right _ _

lemma ownership_bounds (gu : Option GoogleUserInfo) (dr : Bool) :
    0 ≤ Proof.calculate_instagram_ownership_score gu dr ∧
      Proof.calculate_instagram_ownership_score gu dr ≤ 15 := by
  unfold Proof.calculate_instagram_ownership_score
  have h1 : (0 : ℚ) ≤ if gu.isSome then 10 else 0 := by split <;> norm_num
  have h2 : (0 : ℚ) ≤ if gu.isSome && dr then 5 else 0 := by split <;> norm_num
  constructor
  · exact le_min (by linarith) (by norm_num)
  · exact min_le_right _ _

lemma scoreFile_none_gu (ctx : Ctx) (dr : Bool) (st : String) (d : JVal)
    (errs : List String) (pr : ProofResponse) (errs2 : List String)
    (pr2 : ProofResponse)
    (h : Proof.scoreFile ctx none dr st d errs pr = some (errs2, pr2)) :
    errs2 = errs ++ ["NO_GOOGLE_OAUTH"] ∧
    pr2.score = (pr2.quality + pr2.authenticity + pr2.uniqueness +
      pr2.ownership) / 10 ∧
    pr2.valid = false ∧ pr2.errors = pr.errors := by
  unfold Proof.scoreFile at h
  simp only [Option.bind_eq_bind, Option.bind_eq_some, Option.pure_def,
    Option.some.injEq, Option.isNone_none, if_true, Prod.mk.injEq] at h
  obtain ⟨q, hq, a, ha, u, hu, attrs, hattrs, he, hpr⟩ := h
  subst he
  subst hpr
  refine ⟨rfl, ?_, ?_, rfl⟩
  · simp only [List.mem_append, List.mem_singleton, or_true, if_true]
    ring
  · simp [List.isEmpty_eq_false]

lemma scoreFile_some_gu (ctx : Ctx) (g : GoogleUserInfo) (dr : Bool)
    (st : String) (d : JVal) (errs : List String) (pr : ProofResponse)
    (errs2 : List String) (pr2 : ProofResponse)
    (h : Proof.scoreFile ctx (some g) dr st d errs pr = some (errs2, pr2)) :
    errs2 = errs ∧ pr2.errors = pr.errors := by
  unfold Proof.scoreFile at h
  simp only [Option.bind_eq_bind, Option.bind_eq_some, Option.pure_def,
    Option.some.injEq, Option.isNone_some, if_false, Prod.mk.injEq] at h
  obtain ⟨q, hq, a, ha, u, hu, attrs, hattrs, he, hpr⟩ := h
  subst he
  subst hpr
  exact ⟨rfl, rfl⟩

lemma processFiles_inv (ctx : Ctx) (dr : Bool) (files : List InputFile) :
    ∀ errs pr out,
      Proof.processFiles ctx none dr files errs pr = some out →
      (pr.score = (pr.quality + pr.authenticity + pr.uniqueness +
        pr.ownership) / 10 ∧ "NO_GOOGLE_OAUTH" ∈ errs) →
      out.2.score = (out.2.quality + out.2.authenticity + out.2.uniqueness +
        out.2.ownership) / 10 ∧ "NO_GOOGLE_OAUTH" ∈ out.1 := by
  induction files with
  | nil =>
    intro errs pr out h hinv
    simp only [Proof.processFiles, Option.some.injEq] at h
    subst h
    exact hinv
  | cons f rest ih =>
    intro errs pr out h hinv
    simp only [Proof.processFiles] at h
    by_cases hj : f.isJson
    · simp only [hj, if_true] at h
      by_cases hv : (ctx.validateSchema f.data).2
      · simp only [hv, if_true, Option.bind_eq_bind, Option.bind_eq_some] at h
        obtain ⟨⟨e2, p2⟩, hsf, hrest⟩ := h
        obtain ⟨he2, hscore, -, -⟩ := scoreFile_none_gu _ _ _ _ _ _ _ _ hsf
        exact ih e2 p2 out hrest ⟨hscore, by simp [he2]⟩
      · simp only [hv, Bool.false_eq_true, if_false, Option.some.injEq] at h
        subst h
        exact ⟨hinv.1, by simp [hinv.2]⟩
    · simp only [hj, Bool.false_eq_true, if_false] at h
      exact ih errs pr out h hinv

lemma processFiles_first (ctx : Ctx) (dr : Bool) (files : List InputFile) :
    ∀ errs pr out,
      Proof.scoresAny ctx files = true →
      Proof.processFiles ctx none dr files errs pr = some out →
      out.2.score = (out.2.quality + out.2.authenticity + out.2.uniqueness +
        out.2.ownership) / 10 ∧ "NO_GOOGLE_OAUTH" ∈ out.1 := by
  induction files with
  | nil => intro errs pr out hs; simp [Proof.scoresAny] at hs
  | cons f rest ih =>
    intro errs pr out hs h
    simp only [Proof.processFiles] at h
    simp only [Proof.scoresAny] at hs
    by_cases hj : f.isJson
    · simp only [hj, if_true] at h hs
      simp only [hs, if_true, Option.bind_eq_bind, Option.bind_eq_some] at h
      obtain ⟨⟨e2, p2⟩, hsf, hrest⟩ := h
      obtain ⟨he2, hscore, -, -⟩ := scoreFile_none_gu _ _ _ _ _ _ _ _ hsf
      exact processFiles_inv ctx dr rest e2 p2 out hrest ⟨hscore, by simp [he2]⟩
    · simp only [hj, Bool.false_eq_true, if_false] at h hs
      exact ih errs pr out hs h

theorem generate_absent_identity_penalty (ctx : Ctx) (files : List InputFile)
    (pr : ProofResponse) (hgu : Proof.effectiveUser ctx = none)
    (hs : Proof.scoresAny ctx files = true)
    (h : Proof.generate ctx files = some pr) :
    pr.score = (pr.quality + pr.authenticity + pr.uniqueness +
      pr.ownership) / 10 ∧ "NO_GOOGLE_OAUTH" ∈ pr.errors := by
  unfold Proof.generate at h
  rw [hgu] at h
  simp only [Option.bind_eq_bind, Option.bind_eq_some, Option.pure_def,
    Option.some.injEq] at h
  obtain ⟨⟨errsF, prF⟩, hp, hpr⟩ := h
  obtain ⟨hscore, hmem⟩ := processFiles_first ctx _ files _ _ _ hs hp
  have hne : errsF ≠ [] := by
    intro hnil
    rw [hnil] at hmem
    exact absurd hmem (List.not_mem_nil _)
  subst hpr
  refine ⟨hscore, ?_⟩
  simpa [List.isEmpty_eq_false.mpr hne] using hmem

theorem generate_no_token_invalid (ctx : Ctx) (d : JVal) (pr : ProofResponse)
    (ht : ctx.googleTokenSet = false) (hv : (ctx.validateSchema d).2 = true)
    (h : Proof.generate ctx [⟨true, d⟩] = some pr) :
    pr.valid = false ∧
    pr.score = (pr.quality + pr.authenticity + pr.uniqueness +
      pr.ownership) / 10 ∧ "NO_GOOGLE_OAUTH" ∈ pr.errors := by
  have hgu : Proof.effectiveUser ctx = none := by
    simp [Proof.effectiveUser, ht]
  have hsa : Proof.scoresAny ctx [⟨true, d⟩] = true := by
    simp [Proof.scoresAny, hv]
  obtain ⟨hscore, hmem⟩ :=
    generate_absent_identity_penalty ctx [⟨true, d⟩] pr hgu hsa h
  refine ⟨?_, hscore, hmem⟩
  unfold Proof.generate at h
  rw [hgu] at h
  simp only [Proof.processFiles, hv, if_true, Option.bind_eq_bind,
    Option.bind_eq_some, Option.pure_def, Option.some.injEq] at h
  obtain ⟨a, ⟨a1, hsf, ha⟩, hpr⟩ := h
  obtain ⟨-, -, hval, -⟩ := scoreFile_none_gu _ _ _ _ _ _ _ _ hsf
  subst ha
  subst hpr
  simpa using hval

lemma processFiles_break_mem (ctx : Ctx) (gu : Option GoogleUserInfo)
    (dr : Bool) (pre : List InputFile) :
    ∀ bad rest errs pr out,
      Proof.allJsonValid ctx pre = true →
      (ctx.validateSchema bad).2 = false →
      Proof.processFiles ctx gu dr (pre ++ ⟨true, bad⟩ :: rest) errs pr =
        some out →
      "INVALID_SCHEMA" ∈ out.1 := by
  induction pre with
  | nil =>
    intro bad rest errs pr out hpre hbad h
    simp only [List.nil_append, Proof.processFiles, hbad, Bool.false_eq_true,
      if_false, if_true, Option.some.injEq] at h
    subst h
    simp
  | cons f pre ih =>
    intro bad rest errs pr out hpre hbad h
    simp only [Proof.allJsonValid, List.all_cons, Bool.and_eq_true] at hpre
    obtain ⟨hf, hpre⟩ := hpre
    simp only [List.cons_append, Proof.processFiles] at h
    by_cases hj : f.isJson
    · simp only [hj, Bool.not_true, Bool.false_or] at hf
      simp only [hj, hf, if_true, Option.bind_eq_bind, Option.bind_eq_some] at h
      obtain ⟨⟨e2, p2⟩, hsf, hrest⟩ := h
      exact ih bad rest e2 p2 out hpre hbad hrest
    · simp only [hj, Bool.false_eq_true, if_false] at h
      exact ih bad rest errs pr out hpre hbad h

theorem invalid_schema_flags_errors (ctx : Ctx) (pre : List InputFile)
    (bad : JVal) (rest : List InputFile) (pr : ProofResponse)
    (hpre : Proof.allJsonValid ctx pre = true)
    (hbad : (ctx.validateSchema bad).2 = false)
    (h : Proof.generate ctx (pre ++ ⟨true, bad⟩ :: rest) = some pr) :
    "INVALID_SCHEMA" ∈ pr.errors ∧ (pre = [] → pr.valid = false) := by
  unfold Proof.generate at h
  simp only [Option.bind_eq_bind, Option.bind_eq_some, Option.pure_def,
    Option.some.injEq] at h
  obtain ⟨⟨errsF, prF⟩, hp, hpr⟩ := h
  have hmem := processFiles_break_mem ctx _ _ pre bad rest _ _ _ hpre hbad hp
  have hne : errsF ≠ [] := by
    intro hnil
    rw [hnil] at hmem
    exact absurd hmem (List.not_mem_nil _)
  constructor
  · subst hpr
    simpa [List.isEmpty_eq_false.mpr hne] using hmem
  · intro hnil
    subst hnil
    simp only [List.nil_append, Proof.processFiles, hbad, Bool.false_eq_true,
      if_false, if_true, Option.some.injEq, Prod.mk.injEq] at hp
    obtain ⟨-, hprF⟩ := hp
    subst hpr
    simp [← hprF, ProofResponse.init]

lemma processFiles_break_stops (ctx : Ctx) (gu : Option GoogleUserInfo)
    (dr : Bool) (pre : List InputFile) :
    ∀ bad rest errs pr,
      Proof.allJsonValid ctx pre = true →
      bad.isJson = true →
      (ctx.validateSchema bad.data).2 = false →
      Proof.processFiles ctx gu dr (pre ++ bad :: rest) errs pr =
        Proof.processFiles ctx gu dr (pre ++ [bad]) errs pr := by
  induction pre with
  | nil =>
    intro bad rest errs pr hpre hj hbad
    simp only [List.nil_append, Proof.processFiles, hj, hbad,
      Bool.false_eq_true, if_false, if_true]
  | cons f pre ih =>
    intro bad rest errs pr hpre hj hbad
    simp only [Proof.allJsonValid, List.all_cons, Bool.and_eq_true] at hpre
    obtain ⟨hf, hpre⟩ := hpre
    simp only [List.cons_append, Proof.processFiles]
    by_cases hfj : f.isJson
    · simp only [hfj, Bool.not_true, Bool.false_or] at hf
      simp only [hfj, hf, if_true]
      cases hsf : Proof.scoreFile ctx gu dr (ctx.validateSchema f.data).1
          f.data errs pr with
      | none => simp
      | some a =>
        simp only [Option.bind_eq_bind, Option.some_bind]
        exact ih bad rest a.1 a.2 hpre hj hbad
    · simp only [hfj, Bool.false_eq_true, if_false]
      exact ih bad rest errs pr hpre hj hbad

theorem generate_break_stops (ctx : Ctx) (pre : List InputFile)
    (bad : InputFile) (rest : List InputFile)
    (hpre : Proof.allJsonValid ctx pre = true)
    (hj : bad.isJson = true)
    (hbad : (ctx.validateSchema bad.data).2 = false) :
    Proof.generate ctx (pre ++ bad :: rest) =
      Proof.generate ctx (pre ++ [bad]) := by
  unfold Proof.generate
  simp only [processFiles_break_stops ctx (Proof.effectiveUser ctx)
    (Proof.check_if_drive_upload ctx) pre bad rest (Proof.initialErrors ctx)
    ProofResponse.init hpre hj hbad]

lemma scoreFile_compare (ctx : Ctx) (gu : Option GoogleUserInfo) (dr : Bool)
    (st : String) (d : JVal) (errs1 errs2 : List String)
    (pr1 pr2 : ProofResponse) (e1 e2 : List String) (p1 p2 : ProofResponse)
    (hdisj : gu = none ∨ errs1 = errs2)
    (h1 : Proof.scoreFile ctx gu dr st d errs1 pr1 = some (e1, p1))
    (h2 : Proof.scoreFile ctx gu dr st d errs2 pr2 = some (e2, p2)) :
    p1.score = p2.score ∧ p1.quality = p2.quality ∧
    p1.authenticity = p2.authenticity ∧ p1.uniqueness = p2.uniqueness ∧
    p1.ownership = p2.ownership ∧ p1.valid = p2.valid ∧
    p1.attributes = p2.attributes ∧ p1.metadata = p2.metadata := by
  rcases hdisj with hgu | heq
  · subst hgu
    unfold Proof.scoreFile at h1 h2
    simp only [Option.bind_eq_bind, Option.bind_eq_some, Option.pure_def,
      Option.some.injEq, Option.isNone_none, if_true, Prod.mk.injEq] at h1 h2
    obtain ⟨q, hq, a, ha, u, hu, at1, hat1, he1, hp1⟩ := h1
    obtain ⟨q2, hq2, a2, ha2, u2, hu2, at2, hat2, he2, hp2⟩ := h2
    rw [hq] at hq2; rw [ha] at ha2; rw [hu] at hu2; rw [hat1] at hat2
    cases hq2; cases ha2; cases hu2; cases hat2
    have hne1 : (errs1 ++ ["NO_GOOGLE_OAUTH"]).isEmpty = false :=
      List.isEmpty_eq_false.mpr (by simp)
    have hne2 : (errs2 ++ ["NO_GOOGLE_OAUTH"]).isEmpty = false :=
      List.isEmpty_eq_false.mpr (by simp)
    subst hp1; subst hp2
    simp [List.mem_append, hne1, hne2]
  · subst heq
    unfold Proof.scoreFile at h1 h2
    simp only [Option.bind_eq_bind, Option.bind_eq_some, Option.pure_def,
      Option.some.injEq, Prod.mk.injEq] at h1 h2
    obtain ⟨q, hq, a, ha, u, hu, at1, hat1, he1, hp1⟩ := h1
    obtain ⟨q2, hq2, a2, ha2, u2, hu2, at2, hat2, he2, hp2⟩ := h2
    rw [hq] at hq2; rw [ha] at ha2; rw [hu] at hu2; rw [hat1] at hat2
    cases hq2; cases ha2; cases hu2; cases hat2
    subst hp1; subst hp2
    simp

lemma processFiles_last_wins (ctx : Ctx) (gu : Option GoogleUserInfo)
    (dr : Bool) (fs : List InputFile) :
    ∀ g errs1 errs2 pr1 pr2 out1 out2,
      Proof.allJsonValid ctx fs = true →
      g.isJson = true → (ctx.validateSchema g.data).2 = true →
      (gu = none ∨ errs1 = errs2) →
      Proof.processFiles ctx gu dr (fs ++ [g]) errs1 pr1 = some out1 →
      Proof.processFiles ctx gu dr [g] errs2 pr2 = some out2 →
      out1.2.score = out2.2.score ∧ out1.2.quality = out2.2.quality ∧
      out1.2.authenticity = out2.2.authenticity ∧
      out1.2.uniqueness = out2.2.uniqueness ∧
      out1.2.ownership = out2.2.ownership ∧ out1.2.valid = out2.2.valid ∧
      out1.2.attributes = out2.2.attributes ∧
      out1.2.metadata = out2.2.metadata := by
  induction fs with
  | nil =>
    intro g errs1 errs2 pr1 pr2 out1 out2 hpre hj hv hdisj h1 h2
    simp only [List.nil_append, Proof.processFiles, hj, hv, if_true,
      Option.bind_eq_bind, Option.bind_eq_some, Option.some.injEq] at h1 h2
    obtain ⟨⟨f1, q1⟩, hsf1, hout1⟩ := h1
    obtain ⟨⟨f2, q2⟩, hsf2, hout2⟩ := h2
    subst hout1; subst hout2
    exact scoreFile_compare ctx gu dr _ _ _ _ _ _ _ _ _ _ hdisj hsf1 hsf2
  | cons f fs ih =>
    intro g errs1 errs2 pr1 pr2 out1 out2 hpre hj hv hdisj h1 h2
    simp only [Proof.allJsonValid, List.all_cons, Bool.and_eq_true] at hpre
    obtain ⟨hf, hpre⟩ := hpre
    simp only [List.cons_append, Proof.processFiles] at h1
    by_cases hfj : f.isJson
    · simp only [hfj, Bool.not_true, Bool.false_or] at hf
      simp only [hfj, hf, if_true, Option.bind_eq_bind, Option.bind_eq_some] at h1
      obtain ⟨⟨e', p'⟩, hsf, hrest⟩ := h1
      have hdisj' : gu = none ∨ e' = errs2 := by
        rcases hdisj with hgu | heq
        · exact Or.inl hgu
        · subst heq
          rcases gu with _ | g0
          · exact Or.inl rfl
          · obtain ⟨he, -⟩ := scoreFile_some_gu _ _ _ _ _ _ _ _ _ hsf
            exact Or.inr he
      exact ih g e' errs2 p' pr2 out1 out2 hpre hj hv hdisj' hrest h2
    · simp only [hfj, Bool.false_eq_true, if_false] at h1
      exact ih g errs1 errs2 pr1 pr2 out1 out2 hpre hj hv hdisj h1 h2

lemma generate_last_wins (ctx : Ctx) (fs : List InputFile) (g : InputFile)
    (pr prS : ProofResponse)
    (hfs : Proof.allJsonValid ctx fs = true)
    (hj : g.isJson = true) (hv : (ctx.validateSchema g.data).2 = true)
    (h1 : Proof.generate ctx (fs ++ [g]) = some pr)
    (h2 : Proof.generate ctx [g] = some prS) :
    pr.score = prS.score ∧ pr.quality = prS.quality ∧
    pr.authenticity = prS.authenticity ∧ pr.uniqueness = prS.uniqueness ∧
    pr.ownership = prS.ownership ∧ pr.valid = prS.valid ∧
    pr.attributes = prS.attributes ∧ pr.metadata = prS.metadata := by
  unfold Proof.generate at h1 h2
  simp only [Option.bind_eq_bind, Option.bind_eq_some, Option.pure_def,
    Option.some.injEq] at h1 h2
  obtain ⟨⟨e1, p1⟩, hp1, hpr1⟩ := h1
  obtain ⟨⟨e2, p2⟩, hp2, hpr2⟩ := h2
  have := processFiles_last_wins ctx (Proof.effectiveUser ctx)
    (Proof.check_if_drive_upload ctx) fs g _ _ _ _ _ _ hfs hj hv
    (Or.inr rfl) hp1 hp2
  subst hpr1; subst hpr2
  exact this

lemma contentUniquenessCalls_one (ctx : Ctx) (d u n : JVal)
    (h1 : pget d "userId" JVal.null = some u) (hu : truthy u = true)
    (h2 : pget d "username" JVal.null = some n) (hn : truthy n = true)
    (ha : ctx.blockchainAvailable = true) :
    contentUniquenessCalls ctx d = some 1 := by
  unfold contentUniquenessCalls
  rw [h1]
  simp only [Option.bind_eq_bind, Option.some_bind]
  rw [h2]
  simp [hu, hn, ha]

lemma fileContentCalls_three (ctx : Ctx) (d u n : JVal)
    (h1 : pget d "userId" JVal.null = some u) (hu : truthy u = true)
    (h2 : pget d "username" JVal.null = some n) (hn : truthy n = true)
    (ha : ctx.blockchainAvailable = true) :
    fileContentCalls ctx d = some 3 := by
  have hc := contentUniquenessCalls_one ctx d u n h1 hu h2 hn ha
  unfold fileContentCalls
  simp [hc]

lemma runContributorReads_scored (ctx : Ctx)
    (ha : ctx.blockchainAvailable = true) (ho : ctx.ownerAddressSet = true) :
    ∀ files, runContributorReads ctx files = 3 * scoredFileCount ctx files := by
  have hu : userUniquenessReads ctx = 1 := by
    simp [userUniquenessReads, ha, ho]
  intro files
  induction files with
  | nil => rfl
  | cons f rest ih =>
    simp only [runContributorReads, scoredFileCount]
    by_cases hj : f.isJson
    · simp only [hj, if_true]
      by_cases hv : (ctx.validateSchema f.data).2
      · simp only [hv, if_true, fileContributorReads, hu, ih]
        ring
      · simp [hv]
    · simp [hj, ih]

/-- C1 counterexample: a run with identity resolution absent that scores no
file (here: an empty input directory) returns a record whose error list is
empty — it does not contain `NO_GOOGLE_OAUTH`, which is only appended on
the scoring path. -/
theorem claim_C1_counterexample :
    Proof.effectiveUser ctxNoToken = none ∧
    (Proof.generate ctxNoToken []).map ProofResponse.errors = some [] ∧
    (Proof.generate ctxNoToken []).map
      (fun pr => pr.errors.contains "NO_GOOGLE_OAUTH") = some false :=
  ⟨rfl, rfl, rfl⟩

/-- C1 (amended): in every run in which identity resolution is absent (no
Google user resolved) and the loop scores at least one file, the final
score stored in the ProofRecord equals exactly 10% of the unpenalized
aggregate (quality + authenticity + uniqueness + ownership), and the error
list contains the no-identity code `NO_GOOGLE_OAUTH`. -/
theorem claim_C1 (ctx : Ctx) (files : List InputFile) (pr : ProofResponse)
    (hgu : Proof.effectiveUser ctx = none)
    (hs : Proof.scoresAny ctx files = true)
    (h : Proof.generate ctx files = some pr) :
    pr.score = (pr.quality + pr.authenticity + pr.uniqueness +
      pr.ownership) / 10 ∧ "NO_GOOGLE_OAUTH" ∈ pr.errors :=
  generate_absent_identity_penalty ctx files pr hgu hs h

/-- C1 witness: the tokenless single-file run over the fully populated
payload, evaluated concretely. -/
theorem claim_C1_witness :
    Proof.effectiveUser ctxNoToken = none ∧
    Proof.scoresAny ctxNoToken [⟨true, samplePayload⟩] = true ∧
    (((Proof.generate ctxNoToken [⟨true, samplePayload⟩]).getD
        ProofResponse.init).score =
      (((Proof.generate ctxNoToken [⟨true, samplePayload⟩]).getD
        ProofResponse.init).quality +
       ((Proof.generate ctxNoToken [⟨true, samplePayload⟩]).getD
        ProofResponse.init).authenticity +
       ((Proof.generate ctxNoToken [⟨true, samplePayload⟩]).getD
        ProofResponse.init).uniqueness +
       ((Proof.generate ctxNoToken [⟨true, samplePayload⟩]).getD
        ProofResponse.init).ownership) / 10 ∧
      "NO_GOOGLE_OAUTH" ∈ ((Proof.generate ctxNoToken
        [⟨true, samplePayload⟩]).getD ProofResponse.init).errors) :=
  ⟨rfl, rfl, claim_C1 ctxNoToken [⟨true, samplePayload⟩] _ rfl rfl rfl⟩

/-- C2 counterexample: a run over a fully populated, schema-matching
payload with no credential configured returns `valid = false`, not
`valid = true` as claimed — `valid` is assigned `len(errors) == 0` after
`NO_GOOGLE_OAUTH` has been appended. -/
theorem claim_C2_counterexample :
    ctxNoToken.googleTokenSet = false ∧
    (ctxNoToken.validateSchema samplePayload).2 = true ∧
    (Proof.generate ctxNoToken [⟨true, samplePayload⟩]).map
      ProofResponse.valid = some false ∧
    (Proof.generate ctxNoToken [⟨true, samplePayload⟩]).map
      (fun pr => pr.errors.contains "NO_GOOGLE_OAUTH") = some true :=
  ⟨rfl, rfl, rfl, rfl⟩

/-- C2 (amended): a run over a schema-matching payload with no credential
configured yields `valid = false` (the `NO_GOOGLE_OAUTH` error makes the
error list non-empty), the aggregate reduced to exactly 10% of the
unpenalized total, and the no-identity code present. -/
theorem claim_C2 (ctx : Ctx) (d : JVal) (pr : ProofResponse)
    (ht : ctx.googleTokenSet = false) (hv : (ctx.validateSchema d).2 = true)
    (h : Proof.generate ctx [⟨true, d⟩] = some pr) :
    pr.valid = false ∧
    pr.score = (pr.quality + pr.authenticity + pr.uniqueness +
      pr.ownership) / 10 ∧ "NO_GOOGLE_OAUTH" ∈ pr.errors :=
  generate_no_token_invalid ctx d pr ht hv h

/-- C2 witness: the amended statement instantiated on the concrete
tokenless run. -/
theorem claim_C2_witness :
    ((Proof.generate ctxNoToken [⟨true, samplePayload⟩]).getD
      ProofResponse.init).valid = false ∧
    ((Proof.generate ctxNoToken [⟨true, samplePayload⟩]).getD
      ProofResponse.init).score =
      (((Proof.generate ctxNoToken [⟨true, samplePayload⟩]).getD
        ProofResponse.init).quality +
       ((Proof.generate ctxNoToken [⟨true, samplePayload⟩]).getD
        ProofResponse.init).authenticity +
       ((Proof.generate ctxNoToken [⟨true, samplePayload⟩]).getD
        ProofResponse.init).uniqueness +
       ((Proof.generate ctxNoToken [⟨true, samplePayload⟩]).getD
        ProofResponse.init).ownership) / 10 ∧
    "NO_GOOGLE_OAUTH" ∈ ((Proof.generate ctxNoToken
      [⟨true, samplePayload⟩]).getD ProofResponse.init).errors :=
  claim_C2 ctxNoToken samplePayload _ rfl rfl rfl

/-- C3 counterexample: when a schema-matching file precedes the failing
one and a Google user is resolved, the earlier file's scoring sets
`valid = true` with an empty error list, and the later schema mismatch
appends `INVALID_SCHEMA` and breaks without re-assigning `valid` — the
returned record has `valid = true` with `INVALID_SCHEMA` in its errors. -/
theorem claim_C3_counterexample :
    (ctxVerified.validateSchema JVal.null).2 = false ∧
    (Proof.generate ctxVerified [⟨true, samplePayload⟩, ⟨true, JVal.null⟩]).map
      ProofResponse.valid = some true ∧
    (Proof.generate ctxVerified [⟨true, samplePayload⟩, ⟨true, JVal.null⟩]).map
      (fun pr => pr.errors.contains "INVALID_SCHEMA") = some true :=
  ⟨rfl, rfl, rfl⟩

/-- C3 (amended): whenever the loop reaches a payload that fails schema
validation (all earlier `.json` files valid), the returned record's error
list contains `INVALID_SCHEMA`; and `valid = false` whenever the failing
payload is the first candidate file, since the loop breaks before any
scoring assigns `valid`. -/
theorem claim_C3 (ctx : Ctx) (pre : List InputFile) (bad : JVal)
    (rest : List InputFile) (pr : ProofResponse)
    (hpre : Proof.allJsonValid ctx pre = true)
    (hbad : (ctx.validateSchema bad).2 = false)
    (h : Proof.generate ctx (pre ++ ⟨true, bad⟩ :: rest) = some pr) :
    "INVALID_SCHEMA" ∈ pr.errors ∧ (pre = [] → pr.valid = false) :=
  invalid_schema_flags_errors ctx pre bad rest pr hpre hbad h

/-- C3 witness: the amended statement instantiated on a run whose only
file fails validation. -/
theorem claim_C3_witness :
    "INVALID_SCHEMA" ∈ ((Proof.generate ctxVerified
      [⟨true, JVal.null⟩]).getD ProofResponse.init).errors ∧
    ((Proof.generate ctxVerified [⟨true, JVal.null⟩]).getD
      ProofResponse.init).valid = false := by
  have h := claim_C3 ctxVerified [] JVal.null [] _ rfl rfl rfl
  exact ⟨h.1, h.2 rfl⟩

/-- C4: the user-uniqueness sub-term is 1.0 when the ledger reports zero
prior contributions for the configured address, exactly 0.5 when it
reports one or more, and 1.0 when the ledger client failed to initialize
or no address is configured. -/
theorem claim_C4 (ctx : Ctx) :
    (ctx.blockchainAvailable = true → ctx.ownerAddressSet = true →
      (BlockchainClient.get_contributor_file_count ctx = 0 →
        Proof.check_user_uniqueness ctx = 1) ∧
      (0 < BlockchainClient.get_contributor_file_count ctx →
        Proof.check_user_uniqueness ctx = 1/2)) ∧
    ((ctx.blockchainAvailable = false ∨ ctx.ownerAddressSet = false) →
      Proof.check_user_uniqueness ctx = 1) := by
  constructor
  · intro ha ho
    constructor
    · intro hz
      simp [Proof.check_user_uniqueness, ha, ho, hz]
    · intro hp
      simp [Proof.check_user_uniqueness, ha, ho, Nat.pos_iff_ne_zero.mp hp]
  · intro hno
    rcases hno with hno | hno <;> simp [Proof.check_user_uniqueness, hno]

/-- C4 witness: the three cases evaluated on concrete run contexts. -/
theorem claim_C4_witness :
    Proof.check_user_uniqueness ctxVerified = 1 ∧
    Proof.check_user_uniqueness ctxPrior = 1/2 ∧
    Proof.check_user_uniqueness ctxNoToken = 1 :=
  ⟨((claim_C4 ctxVerified).1 rfl rfl).1 rfl,
   ((claim_C4 ctxPrior).1 rfl rfl).2 (by decide),
   (claim_C4 ctxNoToken).2 (Or.inl rfl)⟩

/-- C5 counterexample: with the inner ledger scan failing, the ledger
operation still returns `True` (the "unique" verdict, not an "unknown"
one), and the caller maps it to full credit 1.0 — never to the claimed
partial credit 0.7. -/
theorem claim_C5_counterexample :
    ctxScanFail.contentScan = none ∧
    BlockchainClient.check_content_uniqueness ctxScanFail
      (JVal.str "17841400000000001") (JVal.str "ada_insta") = true ∧
    Proof.check_content_uniqueness ctxScanFail samplePayload = some 1 ∧
    ¬ Proof.check_content_uniqueness ctxScanFail samplePayload =
      some (7/10) := by
  refine ⟨rfl, rfl, rfl, ?_⟩
  rw [show Proof.check_content_uniqueness ctxScanFail samplePayload =
    some 1 from rfl]
  simp only [Option.some.injEq]
  norm_num

/-- C5 (amended): on failure of its internal ledger scan,
`check_content_uniqueness` still returns `True` — the tri-state "unknown"
verdict does not exist in the code — and the caller's partial-credit
(0.7) branch is unreachable: with the client available and both ids
truthy the content-uniqueness sub-term is full credit 1.0. -/
theorem claim_C5 (ctx : Ctx) (hfail : ctx.contentScan = none) :
    (∀ user_id username : JVal,
      BlockchainClient.check_content_uniqueness ctx user_id username = true) ∧
    (∀ d u n : JVal, ctx.blockchainAvailable = true →
      pget d "userId" JVal.null = some u → truthy u = true →
      pget d "username" JVal.null = some n → truthy n = true →
      Proof.check_content_uniqueness ctx d = some 1) :=
  ⟨fun u n => blockchain_content_unique ctx u n,
   fun d u n ha h1 hu h2 hn =>
     proof_content_uniqueness_one ctx d u n h1 h2 hu hn ha⟩

/-- C5 witness: the amended statement instantiated on the failing-scan
context. -/
theorem claim_C5_witness :
    BlockchainClient.check_content_uniqueness ctxScanFail
      (JVal.str "u") (JVal.str "h") = true ∧
    Proof.check_content_uniqueness ctxScanFail samplePayload = some 1 :=
  ⟨(claim_C5 ctxScanFail rfl).1 _ _,
   (claim_C5 ctxScanFail rfl).2 samplePayload (JVal.str "17841400000000001")
     (JVal.str "ada_insta") rfl rfl rfl rfl rfl⟩

/-- C6: for every input payload, whenever a sub-score is produced (the
computation can raise on ill-typed nested values, in which case no score
exists), it lies within its documented bound: quality in [0, 35],
authenticity in [0, 30], uniqueness in [0, 20], ownership in [0, 15]. -/
theorem claim_C6 (ctx : Ctx) (gu : Option GoogleUserInfo) (dr : Bool)
    (d : JVal) :
    (∀ q, Proof.calculate_instagram_quality_score ctx d = some q →
      0 ≤ q ∧ q ≤ 35) ∧
    (∀ a, Proof.calculate_instagram_authenticity_score gu d dr = some a →
      0 ≤ a ∧ a ≤ 30) ∧
    (∀ u, Proof.calculate_instagram_uniqueness_score ctx d = some u →
      0 ≤ u ∧ u ≤ 20) ∧
    (0 ≤ Proof.calculate_instagram_ownership_score gu dr ∧
      Proof.calculate_instagram_ownership_score gu dr ≤ 15) :=
  ⟨fun q h => quality_bounds ctx d q h,
   fun a h => authenticity_bounds gu d dr a h,
   fun u h => uniqueness_bounds ctx d u h,
   ownership_bounds gu dr⟩

/-- C6 witness: the four bounds instantiated on a concrete full-credit
run. -/
theorem claim_C6_witness :
    (0 ≤ (Proof.calculate_instagram_quality_score ctxVerified
        samplePayload).getD 0 ∧
      (Proof.calculate_instagram_quality_score ctxVerified
        samplePayload).getD 0 ≤ 35) ∧
    (0 ≤ (Proof.calculate_instagram_authenticity_score (some sampleUser)
        samplePayload false).getD 0 ∧
      (Proof.calculate_instagram_authenticity_score (some sampleUser)
        samplePayload false).getD 0 ≤ 30) ∧
    (0 ≤ (Proof.calculate_instagram_uniqueness_score ctxVerified
        samplePayload).getD 0 ∧
      (Proof.calculate_instagram_uniqueness_score ctxVerified
        samplePayload).getD 0 ≤ 20) ∧
    (0 ≤ Proof.calculate_instagram_ownership_score (some sampleUser) false ∧
      Proof.calculate_instagram_ownership_score (some sampleUser) false ≤ 15) :=
  ⟨(claim_C6 ctxVerified (some sampleUser) false samplePayload).1 _ rfl,
   (claim_C6 ctxVerified (some sampleUser) false samplePayload).2.1 _ rfl,
   (claim_C6 ctxVerified (some sampleUser) false samplePayload).2.2.1 _ rfl,
   (claim_C6 ctxVerified (some sampleUser) false samplePayload).2.2.2⟩

/-- C7 counterexample: with an invalid file followed by a valid one, the
valid file is never processed (no attributes are produced), although a run
over the valid file alone scores it — the `break` aborts the whole loop,
not just the failing file. -/
theorem claim_C7_counterexample :
    (ctxVerified.validateSchema JVal.null).2 = false ∧
    (Proof.generate ctxVerified [⟨true, JVal.null⟩, ⟨true, samplePayload⟩]).map
      (fun pr => pr.attributes.isSome) = some false ∧
    (Proof.generate ctxVerified [⟨true, samplePayload⟩]).map
      (fun pr => pr.attributes.isSome) = some true :=
  ⟨rfl, rfl, rfl⟩

/-- C7 (amended): a schema mismatch records the error and stops the whole
loop — files after the failing one are not examined (the run result
equals that of the list truncated at the failing file); and among the
files processed before any mismatch, the last scored file's results win:
appending a scored file after any all-valid prefix yields the same
score/sub-scores/valid/attributes/metadata as scoring that file alone. -/
theorem claim_C7 :
    (∀ (ctx : Ctx) (pre : List InputFile) (bad : InputFile)
      (rest : List InputFile),
      Proof.allJsonValid ctx pre = true → bad.isJson = true →
      (ctx.validateSchema bad.data).2 = false →
      Proof.generate ctx (pre ++ bad :: rest) =
        Proof.generate ctx (pre ++ [bad])) ∧
    (∀ (ctx : Ctx) (fs : List InputFile) (g : InputFile)
      (pr prS : ProofResponse),
      Proof.allJsonValid ctx fs = true → g.isJson = true →
      (ctx.validateSchema g.data).2 = true →
      Proof.generate ctx (fs ++ [g]) = some pr →
      Proof.generate ctx [g] = some prS →
      pr.score = prS.score ∧ pr.quality = prS.quality ∧
      pr.authenticity = prS.authenticity ∧ pr.uniqueness = prS.uniqueness ∧
      pr.ownership = prS.ownership ∧ pr.valid = prS.valid ∧
      pr.attributes = prS.attributes ∧ pr.metadata = prS.metadata) :=
  ⟨fun ctx pre bad rest hpre hj hbad =>
    generate_break_stops ctx pre bad rest hpre hj hbad,
   fun ctx fs g pr prS hfs hj hv h1 h2 =>
    generate_last_wins ctx fs g pr prS hfs hj hv h1 h2⟩

/-- C7 witness: both amended parts instantiated on concrete two-file
runs. -/
theorem claim_C7_witness :
    (Proof.generate ctxVerified [⟨true, JVal.null⟩, ⟨true, samplePayload⟩] =
      Proof.generate ctxVerified [⟨true, JVal.null⟩]) ∧
    ((Proof.generate ctxVerified [⟨true, samplePayload⟩,
        ⟨true, sparsePayload⟩]).getD ProofResponse.init).score =
      ((Proof.generate ctxVerified [⟨true, sparsePayload⟩]).getD
        ProofResponse.init).score ∧
    ((Proof.generate ctxVerified [⟨true, samplePayload⟩,
        ⟨true, sparsePayload⟩]).getD ProofResponse.init).attributes =
      ((Proof.generate ctxVerified [⟨true, sparsePayload⟩]).getD
        ProofResponse.init).attributes := by
  have h1 := claim_C7.1 ctxVerified [] ⟨true, JVal.null⟩
    [⟨true, samplePayload⟩] rfl rfl rfl
  have h2 := claim_C7.2 ctxVerified [⟨true, samplePayload⟩]
    ⟨true, sparsePayload⟩ _ _ rfl rfl rfl rfl rfl
  exact ⟨h1, h2.1, h2.2.2.2.2.2.2.1⟩

/-- C8 counterexample: a completing run that scores one file issues three
`contributorInfo` ledger reads, not at most one per fact as claimed. -/
theorem claim_C8_counterexample :
    runContributorReads ctxVerified [⟨true, samplePayload⟩] = 3 ∧
    (Proof.generate ctxVerified [⟨true, samplePayload⟩]).isSome = true ∧
    ¬ runContributorReads ctxVerified [⟨true, samplePayload⟩] ≤ 1 :=
  ⟨rfl, rfl, by decide⟩

/-- C8 (amended): each `_check_user_uniqueness` invocation issues exactly
one ledger read when the client and address are configured, and a run
issues three such reads per scored file (the uniqueness score, the
`user_uniqueness` attribute, and the re-run inside the
`total_uniqueness_score` attribute); likewise, scoring one file invokes
`_check_content_uniqueness` three times, performing three ledger
content-uniqueness calls when both ids are truthy — nothing is cached. -/
theorem claim_C8 (ctx : Ctx) (files : List InputFile)
    (ha : ctx.blockchainAvailable = true) (ho : ctx.ownerAddressSet = true) :
    (userUniquenessReads ctx = 1 ∧
      runContributorReads ctx files = 3 * scoredFileCount ctx files) ∧
    (∀ d u n : JVal, pget d "userId" JVal.null = some u → truthy u = true →
      pget d "username" JVal.null = some n → truthy n = true →
      fileContentCalls ctx d = some 3) :=
  ⟨⟨by simp [userUniquenessReads, ha, ho],
    runContributorReads_scored ctx ha ho files⟩,
   fun d u n h1 hu h2 hn =>
    fileContentCalls_three ctx d u n h1 hu h2 hn ha⟩

/-- C8 witness: the amended counts evaluated on a concrete one-file run:
one contributor read per user-uniqueness invocation, three per scored
file, and three content-uniqueness calls for the scored payload. -/
theorem claim_C8_witness :
    userUniquenessReads ctxVerified = 1 ∧
    runContributorReads ctxVerified [⟨true, samplePayload⟩] =
      3 * scoredFileCount ctxVerified [⟨true, samplePayload⟩] ∧
    fileContentCalls ctxVerified samplePayload = some 3 :=
  ⟨(claim_C8 ctxVerified [⟨true, samplePayload⟩] rfl rfl).1.1,
   (claim_C8 ctxVerified [⟨true, samplePayload⟩] rfl rfl).1.2,
   (claim_C8 ctxVerified [⟨true, samplePayload⟩] rfl rfl).2 samplePayload
     (JVal.str "17841400000000001") (JVal.str "ada_insta") rfl rfl rfl rfl⟩

/-- C9: the ledger-level content-uniqueness check returns `True` for every
input, so the caller's duplicate (0.3) and check-failed (0.7) branches are
unreachable: whenever the client initialized and both `userId` and
`username` are truthy, the content-uniqueness sub-term is exactly 1.0. -/
theorem claim_C9 (ctx : Ctx) :
    (∀ user_id username : JVal,
      BlockchainClient.check_content_uniqueness ctx user_id username = true) ∧
    (∀ d u n : JVal, ctx.blockchainAvailable = true →
      pget d "userId" JVal.null = some u → truthy u = true →
      pget d "username" JVal.null = some n → truthy n = true →
      Proof.check_content_uniqueness ctx d = some 1) :=
  ⟨fun u n => blockchain_content_unique ctx u n,
   fun d u n ha h1 hu h2 hn =>
     proof_content_uniqueness_one ctx d u n h1 h2 hu hn ha⟩

/-- C9 witness: instantiated on the verified run context and the full
payload. -/
theorem claim_C9_witness :
    BlockchainClient.check_content_uniqueness ctxVerified
      (JVal.str "u") (JVal.str "h") = true ∧
    Proof.check_content_uniqueness ctxVerified samplePayload = some 1 :=
  ⟨(claim_C9 ctxVerified).1 _ _,
   (claim_C9 ctxVerified).2 samplePayload (JVal.str "17841400000000001")
     (JVal.str "ada_insta") rfl rfl rfl rfl rfl⟩

/-- C10: for every payload in which `userId` or `username` is falsy, the
content-uniqueness sub-term returns 0.0, not the conservative default of
full credit, even when the ledger is unavailable (any context). -/
theorem claim_C10 (ctx : Ctx) (d u n : JVal)
    (h1 : pget d "userId" JVal.null = some u)
    (h2 : pget d "username" JVal.null = some n)
    (hf : truthy u = false ∨ truthy n = false) :
    Proof.check_content_uniqueness ctx d = some 0 :=
  proof_content_uniqueness_zero ctx d u n h1 h2 hf

/-- C10 witness: instantiated with an unavailable ledger and an
empty-string username. -/
theorem claim_C10_witness :
    ctxNoToken.blockchainAvailable = false ∧
    Proof.check_content_uniqueness ctxNoToken noNamePayload = some 0 :=
  ⟨rfl, claim_C10 ctxNoToken noNamePayload (JVal.str "17841400000000003")
    (JVal.str "") rfl rfl (Or.inr rfl)⟩
